import Mathlib

/-!
Verification of the poll-and-notify monitor plugins of streamdeck-gui-ng:
the AlertManager plugin (`src/plugins/alertmanager/alertmanager_plugin.py`)
and the Arch update plugin (`src/plugins/arch_update/arch_update_plugin.py`).

Modelling conventions:
* Timestamps and configured intervals are integers (`ℤ`); the code uses
  `time.time()` floats but every claim is about order comparisons, which the
  integer model preserves.
* Counts are natural numbers (`ℕ`); `last_update_count` is `ℤ` because the
  code uses the sentinel `-1` for "not checked yet".
* External effects are passed in as explicit inputs: the HTTP fetch result
  of the alertmanager poll, the stdout/exception outcome of each subprocess
  check, and whether the browser/terminal launch raises.  Host IPC calls
  (`log`, `update_image_render`, `request_page_switch`) are modelled as
  infallible outputs.
-/

/-- Log levels of `streamdeck_ui.plugin_system.protocol.LogLevel`. -/
inductive LogLevel where
  | DEBUG
  | INFO
  | WARNING
  | ERROR
deriving DecidableEq, Repr

/-- Arguments of `update_image_render` that the claims mention. -/
structure RenderSpec where
  text : String
  background_color : String
  font_color : String
  font_size : ℕ
deriving DecidableEq, Repr

/-! ## AlertManager plugin -/

/-- Mutable state of `AlertManagerPlugin` (constructor, lines 47-53),
together with the two configuration fields the monitor logic reads. -/
structure AMState where
  poll_interval : ℤ
  flash_duration : ℤ
  last_alert_count : ℕ
  current_alert_count : ℕ
  last_poll_time : ℤ
  is_flashing : Bool
  flash_state : Bool
  flash_start_time : ℤ
deriving DecidableEq, Repr

/-- Initial state built by `AlertManagerPlugin.__init__`. -/
def initAM (poll_interval flash_duration : ℤ) : AMState :=
  { poll_interval := poll_interval
    flash_duration := flash_duration
    last_alert_count := 0
    current_alert_count := 0
    last_poll_time := 0
    is_flashing := false
    flash_state := false
    flash_start_time := 0 }

/-- Outcome of the HTTP request + JSON parse in `_poll_alertmanager`:
either the list of per-alert `status.state` fields, or an exception
(`requests.exceptions.RequestException` / any other exception), which the
two `except` clauses catch. -/
inductive FetchResult where
  | ok (alertStates : List String)
  | reqError (msg : String)
  | otherError (msg : String)
deriving DecidableEq, Repr

/-- Line 181: alerts whose `status.state` equals `"active"` are counted. -/
def countActive (alertStates : List String) : ℕ :=
  (alertStates.filter (fun a => a == "active")).length

/-- Observable output of one poll: the state after the call, the
`request_page_switch` emission (with its duration) if any, and the log
messages emitted. -/
structure AMPollOut where
  state : AMState
  pageSwitch : Option ℤ
  logs : List (LogLevel × String)
deriving DecidableEq, Repr

/-- `AlertManagerPlugin._poll_alertmanager` (lines 146-206).  On a fetch or
parse exception the handler only logs; the state is untouched.  On success
`current_alert_count` is set, flashing starts when the count strictly
increased and the stored count was positive, and `last_alert_count` is set
to the new count unconditionally. -/
def pollAlertmanager (s : AMState) (fetch : FetchResult) (now : ℤ) : AMPollOut :=
  match fetch with
  | .reqError e =>
      ⟨s, none, [(LogLevel.ERROR, "Failed to poll AlertManager: " ++ e)]⟩
  | .otherError e =>
      ⟨s, none, [(LogLevel.ERROR, "Unexpected error polling AlertManager: " ++ e)]⟩
  | .ok alertStates =>
      let cnt := countActive alertStates
      let isNew := cnt > s.last_alert_count ∧ s.last_alert_count > 0
      let debugLog := (LogLevel.DEBUG,
        "Polled AlertManager: " ++ toString cnt ++ " alerts")
      ⟨{ s with current_alert_count := cnt,
                last_alert_count := cnt,
                is_flashing := if isNew then true else s.is_flashing,
                flash_start_time := if isNew then now else s.flash_start_time,
                flash_state := if isNew then true else s.flash_state },
        if isNew then some s.flash_duration else none,
        if isNew then
          [debugLog,
           (LogLevel.WARNING,
            "NEW ALERTS DETECTED! +" ++ toString (cnt - s.last_alert_count) ++ " alerts")]
        else [debugLog]⟩

/-- The poll-due phase of `AlertManagerPlugin.update` (lines 130-133). -/
def pollPhaseAM (s : AMState) (now : ℤ) (fetch : FetchResult) : AMState :=
  if now - s.last_poll_time ≥ s.poll_interval then
    { (pollAlertmanager s fetch now).state with last_poll_time := now }
  else s

/-- The flash-handling phase of `AlertManagerPlugin.update` (lines 135-144).
Returns the new state and the number of `_update_display` calls made. -/
def handleFlashAM (s : AMState) (now : ℤ) : AMState × ℕ :=
  if s.is_flashing then
    let s1 := if now - s.flash_start_time ≥ s.flash_duration then
                { s with is_flashing := false }
              else s
    ({ s1 with flash_state := !s1.flash_state }, 1)
  else (s, 0)

/-- `AlertManagerPlugin.update` (lines 126-144): the periodic tick.  Returns
the new state and the number of renders triggered. -/
def updateAM (s : AMState) (now : ℤ) (fetch : FetchResult) : AMState × ℕ :=
  handleFlashAM (pollPhaseAM s now fetch) now

/-- `AlertManagerPlugin.on_button_pressed` (lines 67-85).  `launchOk` tells
whether launching the browser raised; the flash-clearing block sits after
the launch inside the same `try`, so it is skipped when the launch raises.
Returns the new state and the number of renders triggered. -/
def onButtonPressedAM (s : AMState) (launchOk : Bool) : AMState × ℕ :=
  if launchOk then
    if s.is_flashing then ({ s with is_flashing := false }, 1) else (s, 0)
  else (s, 0)

/-- `AlertManagerPlugin._update_display` (lines 208-244), restricted to the
fields the claims mention (`env` is `environment_name`). -/
def updateDisplayAM (s : AMState) (env : String) : RenderSpec :=
  if s.is_flashing ∧ s.flash_state then
    { text := env ++ "\n\nNEW!"
      background_color := "#FF0000"
      font_color := "#FFFFFF"
      font_size := 14 }
  else if s.current_alert_count > 0 then
    { text := env ++ "\n\n" ++ toString s.current_alert_count ++ " alerts"
      background_color := if s.current_alert_count ≥ 5 then "#FF4500" else "#FFA500"
      font_color := "#FFFFFF"
      font_size := 12 }
  else
    { text := env ++ "\n\n" ++ toString s.current_alert_count ++ " alerts"
      background_color := "#2E7D32"
      font_color := "#FFFFFF"
      font_size := 12 }

/-! ## Arch update plugin -/

/-- Mutable state of `ArchUpdatePlugin` (constructor, lines 39-47), together
with the configuration fields the monitor logic reads.  `last_update_count`
is `-1` until the first completed check. -/
structure ArchState where
  check_command : String
  aur_check_command : String
  flatpak_check : Bool
  check_interval : ℤ
  notify_on_updates : Bool
  notify_duration : ℤ
  show_count_when_zero : Bool
  system_name : String
  last_check_time : ℤ
  last_update_count : ℤ
  current_update_count : ℕ
  pacman_updates : ℕ
  aur_updates : ℕ
  flatpak_updates : ℕ
  check_error : Option String
  is_checking : Bool
deriving DecidableEq, Repr

/-- Initial state built by `ArchUpdatePlugin.__init__` with the default
configuration values. -/
def initArch : ArchState :=
  { check_command := "checkupdates"
    aur_check_command := ""
    flatpak_check := false
    check_interval := 3600
    notify_on_updates := true
    notify_duration := 10
    show_count_when_zero := false
    system_name := "System"
    last_check_time := 0
    last_update_count := -1
    current_update_count := 0
    pacman_updates := 0
    aur_updates := 0
    flatpak_updates := 0
    check_error := none
    is_checking := false }

/-- Outcome of one `subprocess.run` sub-check: the stripped stdout split
into lines, or one of the exceptions the sub-check handlers catch. -/
inductive SubResult where
  | ok (lines : List String)
  | timeout
  | notFound
  | fail (msg : String)
deriving DecidableEq, Repr

/-- Count non-empty lines of a command's stripped stdout (lines 215-217). -/
def countLines (lines : List String) : ℕ :=
  (lines.filter (fun l => l != "")).length

/-- `ArchUpdatePlugin._check_pacman` (lines 202-228): returns the update
count, the `check_error` assignment made (only on `FileNotFoundError`), and
the logs emitted. -/
def checkPacman (cmd : String) (r : SubResult) : ℕ × Option String × List (LogLevel × String) :=
  match r with
  | .ok lines => (countLines lines, none, [])
  | .timeout => (0, none, [(LogLevel.ERROR, "Pacman check timed out")])
  | .notFound =>
      (0, some ("Command not found: " ++ cmd),
       [(LogLevel.ERROR, "Command not found: " ++ cmd)])
  | .fail e => (0, none, [(LogLevel.ERROR, "Pacman check failed: " ++ e)])

/-- The Python substring test `'->' in line`, on the line's characters. -/
def containsArrow : List Char → Bool
  | '-' :: '>' :: _ => true
  | _ :: rest => containsArrow rest
  | [] => false

/-- `ArchUpdatePlugin._check_aur` (lines 230-256): counts non-empty stdout
lines containing `"->"`; every exception degrades to 0. -/
def checkAur (cmd : String) (r : SubResult) : ℕ × List (LogLevel × String) :=
  match r with
  | .ok lines =>
      ((lines.filter (fun l => l != "" && containsArrow l.data)).length, [])
  | .timeout => (0, [(LogLevel.ERROR, "AUR check timed out")])
  | .notFound => (0, [(LogLevel.ERROR, "AUR helper not found: " ++ cmd)])
  | .fail e => (0, [(LogLevel.ERROR, "AUR check failed: " ++ e)])

/-- `ArchUpdatePlugin._check_flatpak` (lines 258-282): counts non-empty
stdout lines; a missing `flatpak` binary is only a warning. -/
def checkFlatpak (r : SubResult) : ℕ × List (LogLevel × String) :=
  match r with
  | .ok lines => (countLines lines, [])
  | .timeout => (0, [(LogLevel.ERROR, "Flatpak check timed out")])
  | .notFound => (0, [(LogLevel.WARNING, "Flatpak not installed")])
  | .fail e => (0, [(LogLevel.ERROR, "Flatpak check failed: " ++ e)])

/-- External inputs of one `_check_updates` call: the three sub-check
outcomes, and `outerError = some e` when the body of the outer `try` raises
(the sub-checks catch their own exceptions, so only the host IPC calls at
the top of the body can raise; the handler then records `check_error`). -/
structure ArchPollInput where
  pacman : SubResult
  aur : SubResult
  flatpak : SubResult
  outerError : Option String
deriving DecidableEq, Repr

/-- Observable output of one `_check_updates` call. -/
structure ArchCheckOut where
  state : ArchState
  pageSwitch : Option ℤ
  renders : ℕ
  logs : List (LogLevel × String)
deriving DecidableEq, Repr

/-- `ArchUpdatePlugin._check_updates` (lines 150-200).  Sets `is_checking`,
clears `check_error`, runs the sub-checks (AUR only when configured,
flatpak only when enabled), totals the counts, emits the new-updates
notification when `last_update_count ≥ 0` and the total strictly increased,
stores the total into `last_update_count`, and in `finally` clears
`is_checking` and renders once. -/
def checkUpdates (s0 : ArchState) (inp : ArchPollInput) : ArchCheckOut :=
  let s := { s0 with is_checking := true, check_error := none }
  match inp.outerError with
  | some e =>
      ⟨{ s with check_error := some e, is_checking := false }, none, 1,
        [(LogLevel.ERROR, "Failed to check updates: " ++ e)]⟩
  | none =>
      let pacOut := checkPacman s0.check_command inp.pacman
      let aurOut := checkAur s0.aur_check_command inp.aur
      let flatOut := checkFlatpak inp.flatpak
      let pacCount := pacOut.1
      let aurCount := if s0.aur_check_command != "" then aurOut.1 else 0
      let flatCount := if s0.flatpak_check then flatOut.1 else 0
      let total : ℕ := pacCount + aurCount + flatCount
      let isNew := (0 : ℤ) ≤ s0.last_update_count ∧
        (total : ℤ) > s0.last_update_count ∧ total > 0
      ⟨{ s0 with pacman_updates := pacCount,
                 aur_updates := aurCount,
                 flatpak_updates := flatCount,
                 check_error := if pacOut.2.1.isSome then pacOut.2.1 else none,
                 current_update_count := total,
                 last_update_count := (total : ℤ),
                 is_checking := false },
        if isNew ∧ s0.notify_on_updates then some s0.notify_duration else none, 1,
        [(LogLevel.DEBUG, "Checking for updates...")] ++ pacOut.2.2 ++
          (if s0.aur_check_command != "" then aurOut.2 else []) ++
          (if s0.flatpak_check then flatOut.2 else []) ++
          [(LogLevel.INFO, "Total updates available: " ++ toString total)] ++
          (if isNew then
            [(LogLevel.WARNING,
              "NEW UPDATES DETECTED! +" ++
                toString ((total : ℤ) - s0.last_update_count) ++ " updates")]
          else [])⟩

/-- `ArchUpdatePlugin.update` (lines 141-148): the periodic tick.  Returns
the new state and the number of renders triggered. -/
def updateArch (s : ArchState) (now : ℤ) (inp : ArchPollInput) : ArchState × ℕ :=
  if ¬s.is_checking ∧ now - s.last_check_time ≥ s.check_interval then
    let out := checkUpdates s inp
    ({ out.state with last_check_time := now }, out.renders)
  else (s, 0)

/-- The breakdown entries built at lines 338-344: one entry per sub-source
with a non-zero count. -/
def breakdownParts (s : ArchState) : List String :=
  (if s.pacman_updates > 0 then ["P:" ++ toString s.pacman_updates] else []) ++
    (if s.aur_updates > 0 then ["A:" ++ toString s.aur_updates] else []) ++
    (if s.flatpak_updates > 0 then ["F:" ++ toString s.flatpak_updates] else [])

/-- `ArchUpdatePlugin._update_display` (lines 284-368), restricted to the
fields the claims mention. -/
def updateDisplayArch (s : ArchState) : RenderSpec :=
  if s.is_checking then
    { text := s.system_name ++ "\n\nChecking..."
      background_color := "#555555"
      font_color := "#FFFFFF"
      font_size := 12 }
  else if s.check_error.isSome then
    { text := s.system_name ++ "\n\nError"
      background_color := "#AA0000"
      font_color := "#FFFFFF"
      font_size := 12 }
  else if s.last_update_count < 0 then
    { text := s.system_name ++ "\n\nStarting..."
      background_color := "#555555"
      font_color := "#FFFFFF"
      font_size := 12 }
  else if s.current_update_count = 0 then
    { text := s.system_name ++
        (if s.show_count_when_zero then "\n\n0 updates" else "\n\nUp to date")
      background_color := "#2E7D32"
      font_color := "#FFFFFF"
      font_size := 12 }
  else
    let baseText := s.system_name ++ "\n\n" ++ toString s.current_update_count ++
      " update" ++ (if s.current_update_count ≠ 1 then "s" else "")
    let parts := breakdownParts s
    { text := if parts.length > 1 then
          baseText ++ "\n(" ++ String.intercalate " " parts ++ ")"
        else baseText
      background_color :=
        if s.current_update_count ≥ 20 then "#D32F2F"
        else if s.current_update_count ≥ 10 then "#F57C00"
        else "#1976D2"
      font_color := "#FFFFFF"
      font_size := if s.current_update_count > 0 ∧ parts.length > 1 then 11 else 12 }

/-! ## Concrete reachable states used in counterexamples and witnesses -/

/-- Alertmanager state after one successful poll observing 1 active alert. -/
def amPoll1 : AMState := (pollAlertmanager (initAM 30 10) (.ok ["active"]) 0).state

/-- Alertmanager state after polls observing 1 then 2 active alerts: the
second poll starts flashing at time 1. -/
def amFlashingState : AMState :=
  (pollAlertmanager amPoll1 (.ok ["active", "active"]) 1).state

/-- Alertmanager state after polls observing 1, 2, then 0 active alerts:
still flashing (no poll clears the flash), with the stored count at 0. -/
def amFlashZeroState : AMState :=
  (pollAlertmanager amFlashingState (.ok []) 2).state

/-- Alertmanager state after one successful poll observing 3 active alerts. -/
def amThreeState : AMState :=
  (pollAlertmanager (initAM 30 10) (.ok ["active", "active", "active"]) 0).state

/-- Arch state after one completed check that found 5 pacman updates. -/
def archFiveState : ArchState :=
  (checkUpdates initArch ⟨.ok ["a", "b", "c", "d", "e"], .ok [], .ok [], none⟩).state

/-- Arch configuration with an AUR helper configured and flatpak enabled,
as in scenario E of the specification. -/
def archScenarioEConfig : ArchState :=
  { initArch with aur_check_command := "yay -Qu", flatpak_check := true }

/-! ## Helper lemmas -/

lemma handleFlashAM_flashing (s : AMState) (now : ℤ) :
    (handleFlashAM s now).1.is_flashing =
      (s.is_flashing && decide (now - s.flash_start_time < s.flash_duration)) := by
  unfold handleFlashAM
  by_cases hf : s.is_flashing <;>
    by_cases hd : now - s.flash_start_time ≥ s.flash_duration <;>
      · simp [hf, hd]
        try omega

lemma checkUpdates_renders (s : ArchState) (inp : ArchPollInput) :
    (checkUpdates s inp).renders = 1 := by
  rcases inp with ⟨pac, aur, flat, oe⟩
  cases oe <;> rfl

lemma checkUpdates_not_checking (s : ArchState) (inp : ArchPollInput) :
    (checkUpdates s inp).state.is_checking = false := by
  rcases inp with ⟨pac, aur, flat, oe⟩
  cases oe <;> rfl

/-! ## Claims -/

/-- C1: after every poll the stored previous count equals the count observed
by that same poll, and a failed poll leaves the state — in particular both
counts — unchanged, in both plugins; for the arch checker this holds for
every sub-source outcome (success, timeout, missing binary, other failure)
of the pacman/AUR/flatpak sub-checks. -/
theorem poll_atomicity :
    (∀ (s : AMState) (e : String) (now : ℤ),
        (pollAlertmanager s (.reqError e) now).state = s ∧
          (pollAlertmanager s (.otherError e) now).state = s) ∧
    (∀ (s : AMState) (a : List String) (now : ℤ),
        (pollAlertmanager s (.ok a) now).state.last_alert_count =
          (pollAlertmanager s (.ok a) now).state.current_alert_count) ∧
    (∀ (s : ArchState) (pac aur flat : SubResult) (e : String),
        (checkUpdates s ⟨pac, aur, flat, some e⟩).state.current_update_count =
            s.current_update_count ∧
          (checkUpdates s ⟨pac, aur, flat, some e⟩).state.last_update_count =
            s.last_update_count) ∧
    (∀ (s : ArchState) (pac aur flat : SubResult),
        (checkUpdates s ⟨pac, aur, flat, none⟩).state.last_update_count =
          ((checkUpdates s ⟨pac, aur, flat, none⟩).state.current_update_count : ℤ)) :=
  ⟨fun _ _ _ => ⟨rfl, rfl⟩,
   fun _ _ _ => rfl,
   fun _ _ _ _ _ => ⟨rfl, rfl⟩,
   fun _ _ _ _ => rfl⟩

/-- C2 counterexample: the alertmanager plugin cannot distinguish a stored
count of 0 set by a genuine successful poll from the initial sentinel: after
a first successful poll observing 0 alerts, a second poll observing 3 does
NOT start flashing, contradicting the claim that attention is raised when a
previously observed count of 0 increases. -/
theorem attention_zero_increase_cex :
    (pollAlertmanager (initAM 30 10) (.ok []) 0).state.last_alert_count = 0 ∧
      (pollAlertmanager ((pollAlertmanager (initAM 30 10) (.ok []) 0).state)
          (.ok ["active", "active", "active"]) 1).state.current_alert_count = 3 ∧
      (pollAlertmanager ((pollAlertmanager (initAM 30 10) (.ok []) 0).state)
          (.ok ["active", "active", "active"]) 1).state.is_flashing = false := by
  decide

/-- C2 (amended): a successful alertmanager poll turns flashing on exactly
when the new count strictly exceeds the stored count AND the stored count is
positive (a stored count of 0 — initial sentinel or genuine earlier
observation — never triggers attention), and a poll never turns flashing
off; in particular the first successful poll from the initial state never
flashes.  The arch checker emits its page-switch notification exactly when
a previous check had completed (`last_update_count ≥ 0`), the total
strictly increased, and notifications are enabled; from the initial state
(sentinel `-1`) the first check never notifies. -/
theorem attention_entry_condition :
    (∀ (s : AMState) (a : List String) (now : ℤ),
        (pollAlertmanager s (.ok a) now).state.is_flashing =
          ((decide (countActive a > s.last_alert_count) &&
              decide (s.last_alert_count > 0)) || s.is_flashing)) ∧
    (∀ (pi fd : ℤ) (a : List String) (now : ℤ),
        (pollAlertmanager (initAM pi fd) (.ok a) now).state.is_flashing = false) ∧
    (∀ (s : ArchState) (pac aur flat : SubResult),
        (checkUpdates s ⟨pac, aur, flat, none⟩).pageSwitch =
          (if ((0 : ℤ) ≤ s.last_update_count ∧
                ((checkUpdates s ⟨pac, aur, flat, none⟩).state.current_update_count : ℤ) >
                  s.last_update_count ∧
                (checkUpdates s ⟨pac, aur, flat, none⟩).state.current_update_count > 0) ∧
              s.notify_on_updates
            then some s.notify_duration else none)) ∧
    (∀ (pac aur flat : SubResult),
        (checkUpdates initArch ⟨pac, aur, flat, none⟩).pageSwitch = none) := by
  refine ⟨?_, ?_, ?_, ?_⟩
  · intro s a now
    simp only [pollAlertmanager]
    by_cases h1 : countActive a > s.last_alert_count <;>
      by_cases h2 : s.last_alert_count > 0 <;> simp [h1, h2]
  · intro pi fd a now
    simp [pollAlertmanager, initAM]
  · intro s pac aur flat
    rfl
  · intro pac aur flat
    simp [checkUpdates, initArch]

/-- C3: the flash-handling phase of the alertmanager tick clears attention
exactly when `now - flash_start_time ≥ flash_duration` and never earlier:
afterwards the plugin is flashing iff it was flashing and the window has
not yet elapsed; the phase changes neither the flash start time nor the
duration, so a state left flashing satisfies
`now - flash_start_time < flash_duration`. -/
theorem flash_expiry_exact (s : AMState) (now : ℤ) :
    (handleFlashAM s now).1.is_flashing =
        (s.is_flashing && decide (now - s.flash_start_time < s.flash_duration)) ∧
      (handleFlashAM s now).1.flash_start_time = s.flash_start_time ∧
      (handleFlashAM s now).1.flash_duration = s.flash_duration ∧
      (∀ fetch : FetchResult,
        (updateAM s now fetch).1.is_flashing =
          ((pollPhaseAM s now fetch).is_flashing &&
            decide (now - (pollPhaseAM s now fetch).flash_start_time <
              (pollPhaseAM s now fetch).flash_duration))) := by
  refine ⟨handleFlashAM_flashing s now, ?_, ?_, fun fetch => handleFlashAM_flashing _ now⟩ <;>
    · unfold handleFlashAM
      by_cases hf : s.is_flashing <;>
        by_cases hd : now - s.flash_start_time ≥ s.flash_duration <;> simp [hf, hd]

/-- C4 counterexample: a timed-out alertmanager poll leaves the display in
the normal count view (`"Env\n\n3 alerts"`, orange) — the plugin has no
error render state at all — and a timed-out pacman sub-check in the arch
plugin changes the stored counts (5 previously available updates become 0)
while `check_error` stays unset, so no error view is shown there either. -/
theorem timeout_error_display_cex :
    (pollAlertmanager amThreeState (.reqError "Read timed out") 1).state = amThreeState ∧
      (updateDisplayAM (pollAlertmanager amThreeState (.reqError "Read timed out") 1).state
          "Env").text = "Env\n\n3 alerts" ∧
      (updateDisplayAM (pollAlertmanager amThreeState (.reqError "Read timed out") 1).state
          "Env").background_color = "#FFA500" ∧
      archFiveState.current_update_count = 5 ∧
      (checkUpdates archFiveState ⟨.timeout, .ok [], .ok [], none⟩).state.current_update_count = 0 ∧
      (checkUpdates archFiveState ⟨.timeout, .ok [], .ok [], none⟩).state.check_error = none ∧
      (updateDisplayArch (checkUpdates archFiveState
          ⟨.timeout, .ok [], .ok [], none⟩).state).text = "System\n\nUp to date" := by
  decide

/-- C4 (amended): a timed-out alertmanager poll leaves the state unchanged
and logs at error level, but the display keeps the normal count view — the
alertmanager plugin has no error render state.  In the arch plugin a
timed-out pacman sub-check logs at error level and degrades to a zero
contribution: the totals are recomputed (not preserved) and `check_error`
stays unset; only a failure of the whole check body records `check_error`,
preserves both counts, and renders the distinct `"Error"` view. -/
theorem timeout_handling :
    (∀ (s : AMState) (e : String) (now : ℤ),
        (pollAlertmanager s (.reqError e) now).state = s ∧
          (LogLevel.ERROR, "Failed to poll AlertManager: " ++ e) ∈
            (pollAlertmanager s (.reqError e) now).logs) ∧
    (∀ (s : AMState) (env : String),
        (updateDisplayAM s env).text = env ++ "\n\nNEW!" ∨
          (updateDisplayAM s env).text =
            env ++ "\n\n" ++ toString s.current_alert_count ++ " alerts") ∧
    (∀ (s : ArchState) (aur flat : SubResult),
        (checkUpdates s ⟨.timeout, aur, flat, none⟩).state.pacman_updates = 0 ∧
          (checkUpdates s ⟨.timeout, aur, flat, none⟩).state.check_error = none ∧
          (LogLevel.ERROR, "Pacman check timed out") ∈
            (checkUpdates s ⟨.timeout, aur, flat, none⟩).logs) ∧
    (∀ (s : ArchState) (pac aur flat : SubResult) (e : String),
        (checkUpdates s ⟨pac, aur, flat, some e⟩).state.current_update_count =
            s.current_update_count ∧
          (checkUpdates s ⟨pac, aur, flat, some e⟩).state.last_update_count =
            s.last_update_count ∧
          (checkUpdates s ⟨pac, aur, flat, some e⟩).state.check_error = some e ∧
          (LogLevel.ERROR, "Failed to check updates: " ++ e) ∈
            (checkUpdates s ⟨pac, aur, flat, some e⟩).logs ∧
          (updateDisplayArch (checkUpdates s ⟨pac, aur, flat, some e⟩).state).text =
            s.system_name ++ "\n\nError") := by
  refine ⟨?_, ?_, ?_, ?_⟩
  · intro s e now
    exact ⟨rfl, by simp [pollAlertmanager]⟩
  · intro s env
    unfold updateDisplayAM
    by_cases h1 : s.is_flashing ∧ s.flash_state <;>
      by_cases h2 : s.current_alert_count > 0 <;> simp [h1, h2]
  · intro s aur flat
    refine ⟨rfl, rfl, ?_⟩
    simp [checkUpdates, checkPacman]
  · intro s pac aur flat e
    refine ⟨rfl, rfl, rfl, by simp [checkUpdates], ?_⟩
    simp [checkUpdates, updateDisplayArch]

/-- C5 counterexample: with the default configuration, a tick at time 0 in
the initial state (not flashing, poll not yet due) performs its interval
and flash checks and then triggers no render at all, in either plugin. -/
theorem tick_render_cex :
    (updateAM (initAM 30 10) 0 (.ok [])).2 = 0 ∧
      (updateArch initArch 0 ⟨.ok [], .ok [], .ok [], none⟩).2 = 0 := by
  decide

/-- C5 (amended): a tick renders only conditionally: the alertmanager tick
renders exactly once when the plugin is flashing after the poll phase and
zero times otherwise; the arch tick renders exactly once when an update
check runs (guard not checking, interval elapsed) and zero times
otherwise. -/
theorem tick_render_condition :
    (∀ (s : AMState) (now : ℤ) (fetch : FetchResult),
        (updateAM s now fetch).2 =
          if (pollPhaseAM s now fetch).is_flashing then 1 else 0) ∧
    (∀ (s : ArchState) (now : ℤ) (inp : ArchPollInput),
        (updateArch s now inp).2 =
          if ¬s.is_checking ∧ now - s.last_check_time ≥ s.check_interval then 1 else 0) := by
  constructor
  · intro s now fetch
    unfold updateAM handleFlashAM
    by_cases h : (pollPhaseAM s now fetch).is_flashing <;> simp [h]
  · intro s now inp
    unfold updateArch
    by_cases h : ¬s.is_checking ∧ now - s.last_check_time ≥ s.check_interval
    · rw [if_pos h, if_pos h]
      exact checkUpdates_renders s inp
    · rw [if_neg h, if_neg h]

/-- C6 counterexample: from a concretely reachable flashing state, a button
press whose browser launch raises leaves the plugin flashing — the
flash-clearing block sits after the launch inside the same `try`, so the
claim that attention is cleared regardless of the launch outcome fails. -/
theorem activate_launch_failure_cex :
    amFlashingState.is_flashing = true ∧
      (onButtonPressedAM amFlashingState false).1.is_flashing = true := by
  decide

/-- C6 (amended): when the browser launch succeeds, a button press clears
attention mode and re-renders if flashing and is a no-op for the state
otherwise (idempotence); when the launch raises, the handler only logs and
the state — flashing included — is left unchanged. -/
theorem activate_clears_flash (s : AMState) :
    (onButtonPressedAM s true).1 =
        (if s.is_flashing then { s with is_flashing := false } else s) ∧
      (onButtonPressedAM s true).2 = (if s.is_flashing then 1 else 0) ∧
      (onButtonPressedAM s false).1 = s := by
  unfold onButtonPressedAM
  by_cases h : s.is_flashing <;> simp [h]

/-- C7 counterexample: after polls observing 1, 2 (flashing starts at time
1), then 0 alerts, the plugin is still flashing with a stored count of 0; a
further poll at time 3 observing 5 alerts — an increase seen while
attention is active — does NOT restart the flash window: `flash_start_time`
stays 1. -/
theorem flash_restart_cex :
    amFlashZeroState.is_flashing = true ∧
      amFlashZeroState.last_alert_count = 0 ∧
      (pollAlertmanager amFlashZeroState
          (.ok ["active", "active", "active", "active", "active"]) 3).state.current_alert_count = 5 ∧
      (pollAlertmanager amFlashZeroState
          (.ok ["active", "active", "active", "active", "active"]) 3).state.is_flashing = true ∧
      (pollAlertmanager amFlashZeroState
          (.ok ["active", "active", "active", "active", "active"]) 3).state.flash_start_time = 1 := by
  decide

/-- C7 (amended): a successful poll restarts the flash window to the current
time exactly when the observed count strictly exceeds the stored count and
the stored count is positive — so a poll arriving while already flashing
extends the single window under that condition rather than stacking, and no
poll ever clears flashing; but when the stored count had dropped to 0
during the window, a later increase does not restart it. -/
theorem flash_restart_condition (s : AMState) (a : List String) (now : ℤ) :
    (pollAlertmanager s (.ok a) now).state.flash_start_time =
        (if countActive a > s.last_alert_count ∧ s.last_alert_count > 0 then now
          else s.flash_start_time) ∧
      (pollAlertmanager s (.ok a) now).state.is_flashing =
        ((decide (countActive a > s.last_alert_count) &&
            decide (s.last_alert_count > 0)) || s.is_flashing) := by
  constructor
  · rfl
  · simp only [pollAlertmanager]
    by_cases h1 : countActive a > s.last_alert_count <;>
      by_cases h2 : s.last_alert_count > 0 <;> simp [h1, h2]

/-- C8: the arch total equals the sum of the three stored sub-source counts;
the breakdown entries are exactly the sub-sources with a non-zero count, in
pacman/AUR/flatpak order; in scenario E a check observing (5, 2, 0) yields
total 7 and renders `"System\n\n7 updates\n(P:5 A:2)"` — the flatpak entry,
whose count is 0, is omitted. -/
theorem update_sum_and_breakdown :
    (∀ (s : ArchState) (pac aur flat : SubResult),
        (checkUpdates s ⟨pac, aur, flat, none⟩).state.current_update_count =
          (checkUpdates s ⟨pac, aur, flat, none⟩).state.pacman_updates +
            (checkUpdates s ⟨pac, aur, flat, none⟩).state.aur_updates +
            (checkUpdates s ⟨pac, aur, flat, none⟩).state.flatpak_updates) ∧
    (∀ (s : ArchState),
        breakdownParts s =
          (([("P:" ++ toString s.pacman_updates, s.pacman_updates),
              ("A:" ++ toString s.aur_updates, s.aur_updates),
              ("F:" ++ toString s.flatpak_updates, s.flatpak_updates)].filter
              (fun x => x.2 > 0)).map Prod.fst)) ∧
    ((checkUpdates archScenarioEConfig
          ⟨.ok ["a", "b", "c", "d", "e"], .ok ["x -> y", "z -> w"], .ok [],
            none⟩).state.current_update_count = 7 ∧
      (updateDisplayArch (checkUpdates archScenarioEConfig
          ⟨.ok ["a", "b", "c", "d", "e"], .ok ["x -> y", "z -> w"], .ok [],
            none⟩).state).text = "System\n\n7 updates\n(P:5 A:2)") := by
  refine ⟨fun _ _ _ _ => rfl, ?_, by decide⟩
  intro s
  unfold breakdownParts
  by_cases h1 : s.pacman_updates > 0 <;> by_cases h2 : s.aur_updates > 0 <;>
    by_cases h3 : s.flatpak_updates > 0 <;> simp [h1, h2, h3, List.filter]

/-- C9: the non-flashing alertmanager render maps the alert count to a fixed
background by thresholds — 0 renders green `#2E7D32`, 1 to 4 render orange
`#FFA500`, 5 and above render orange-red `#FF4500` — always with white
text, and the background is never the flashing red `#FF0000`. -/
theorem alert_color_thresholds (s : AMState) (env : String)
    (h : s.is_flashing = false) :
    (updateDisplayAM s env).font_color = "#FFFFFF" ∧
      (updateDisplayAM s env).background_color =
        (if s.current_alert_count = 0 then "#2E7D32"
          else if s.current_alert_count ≥ 5 then "#FF4500" else "#FFA500") ∧
      (updateDisplayAM s env).background_color ≠ "#FF0000" := by
  unfold updateDisplayAM
  by_cases h0 : s.current_alert_count = 0
  · simp [h, h0]
  · by_cases h5 : s.current_alert_count ≥ 5 <;>
      simp [h, h0, h5, Nat.pos_of_ne_zero h0]

/-- C9 witness: the color thresholds applied to the concrete reachable state
with 3 active alerts: orange background, white text. -/
theorem alert_color_thresholds_witness :
    (updateDisplayAM amThreeState "Env").font_color = "#FFFFFF" ∧
      (updateDisplayAM amThreeState "Env").background_color = "#FFA500" := by
  have h := alert_color_thresholds amThreeState "Env" (by decide)
  exact ⟨h.1, by rw [h.2.1]; decide⟩

/-- C10: `is_checking` is false again when `_check_updates` returns, on both
the success and the error path; a tick that arrives while a check is marked
in progress starts no new check and leaves the state untouched; and from
any quiescent state every tick returns a quiescent state, so `is_checking`
is false at every point between host callbacks. -/
theorem is_checking_invariant :
    (∀ (s : ArchState) (inp : ArchPollInput),
        (checkUpdates s inp).state.is_checking = false) ∧
    (∀ (s : ArchState) (now : ℤ) (inp : ArchPollInput),
        s.is_checking = true → updateArch s now inp = (s, 0)) ∧
    (∀ (s : ArchState) (now : ℤ) (inp : ArchPollInput),
        s.is_checking = false → (updateArch s now inp).1.is_checking = false) := by
  refine ⟨checkUpdates_not_checking, ?_, ?_⟩
  · intro s now inp h
    unfold updateArch
    simp [h]
  · intro s now inp h
    unfold updateArch
    by_cases hc : ¬s.is_checking ∧ now - s.last_check_time ≥ s.check_interval
    · rw [if_pos hc]
      exact checkUpdates_not_checking s inp
    · rw [if_neg hc]
      exact h

/-- C10 witness: a tick at time 99999 while `is_checking` is set does
nothing; the same tick from the quiescent initial state runs a check and
returns with `is_checking` false. -/
theorem is_checking_invariant_witness :
    updateArch { initArch with is_checking := true } 99999 ⟨.ok [], .ok [], .ok [], none⟩ =
        ({ initArch with is_checking := true }, 0) ∧
      (updateArch initArch 99999 ⟨.ok [], .ok [], .ok [], none⟩).1.is_checking = false := by
  exact ⟨is_checking_invariant.2.1 _ 99999 _ rfl, is_checking_invariant.2.2 _ 99999 _ rfl⟩
